import Mathlib

/-!
Shallow embedding of the QKart cart service (`src/services/cart.service.js`).

The persisted document stores (the `Cart` collection and the read-only
`Product` collection) are modelled as a `Db` record of lists; the `User`
collaborator is a record carrying its wallet balance and address flag.
Each service operation is a pure function from the store (and its
arguments) to a result (`Except ApiError _`) together with the store
after all persisted writes the operation performed before returning or
throwing.  `checkout` is additionally factored through an explicit list
of persist events so that the ordering of its two writes (user save,
then cart save) is visible.
-/

namespace Qkart

/-- A product document: opaque id and unit cost (`Product` model). -/
structure Product where
  pid : Nat
  cost : Int
deriving DecidableEq, Repr

/-- A cart line item: product reference plus quantity. -/
structure CartItem where
  product : Product
  quantity : Int
deriving DecidableEq, Repr

/-- A cart document, keyed by user email. -/
structure Cart where
  email : String
  cartItems : List CartItem
  paymentOption : Nat
deriving DecidableEq, Repr

/-- The externally owned user: email, wallet balance, address flag. -/
structure User where
  email : String
  walletMoney : Int
  nonDefaultAddress : Bool
deriving DecidableEq, Repr

/-- The delegated predicate `user.hasSetNonDefaultAddress()`. -/
def User.hasSetNonDefaultAddress (u : User) : Bool :=
  u.nonDefaultAddress

/-- The distinct human-readable messages attached to thrown `ApiError`s. -/
inductive ErrMsg where
  | userHasNoCart
  | cartCreationFailed
  | productAlreadyInCart
  | productNotInDatabase
  | userHasNoCartUsePost
  | productNotInCart
deriving DecidableEq, Repr

/-- The `ApiError` value: HTTP-style status code plus an optional message. -/
structure ApiError where
  statusCode : Nat
  message : Option ErrMsg
deriving DecidableEq, Repr

def NOT_FOUND : Nat := 404
def BAD_REQUEST : Nat := 400
def INTERNAL_SERVER_ERROR : Nat := 500

/-- The `config.default_payment_option` value, read when lazily creating a cart. -/
def default_payment_option : Nat := 0

/-- The persisted state the service reads and writes: the cart store and
the (read-only) product store. -/
structure Db where
  carts : List Cart
  products : List Product
deriving DecidableEq, Repr

/-- Model of the `Cart.findOne` lookup by user email. -/
def findCart (db : Db) (email : String) : Option Cart :=
  db.carts.find? (fun c => c.email == email)

/-- Model of the `Product.findById(productId)` lookup. -/
def findProduct (db : Db) (productId : Nat) : Option Product :=
  db.products.find? (fun p => p.pid == productId)

/-- Model of `cart.save()`: upsert of an existing cart document, keyed by email. -/
def saveCart (carts : List Cart) (cart : Cart) : List Cart :=
  carts.map (fun c => if c.email == cart.email then cart else c)

/-- The ObjectId equality test applied to a cart item in the source
(`mongoose.Types.ObjectId(cartItem.product._id).equals(productId)`). -/
def pidMatches (productId : Nat) (item : CartItem) : Bool :=
  item.product.pid == productId

/-- JS `Array.prototype.findIndex`, with the `-1` miss modelled as `none`. -/
def findIndex (p : CartItem → Bool) : List CartItem → Option Nat
  | [] => none
  | item :: rest =>
      if p item then some 0 else (findIndex p rest).map (· + 1)

/-- The indexed assignment `cart.cartItems[productIndex].quantity = quantity`. -/
def setQuantityAt (items : List CartItem) (idx : Nat) (q : Int) : List CartItem :=
  match items, idx with
  | [], _ => []
  | item :: rest, 0 => { item with quantity := q } :: rest
  | item :: rest, n + 1 => item :: setQuantityAt rest n q

/-- Model of `getCartByUser`: fetch the cart, 404 when absent. -/
def getCartByUser (db : Db) (user : User) : Except ApiError Cart :=
  match findCart db user.email with
  | none => .error ⟨NOT_FOUND, some .userHasNoCart⟩
  | some cart => .ok cart

/-- Model of `addProductToCart`: lazily create the cart, reject a duplicate line
item, reject a product id absent from the product store, otherwise append
the new item and save. -/
def addProductToCart (db : Db) (user : User) (productId : Nat) (quantity : Int) :
    Except ApiError Cart × Db :=
  let created :=
    match findCart db user.email with
    | some c => (c, db)
    | none =>
        let c : Cart := ⟨user.email, [], default_payment_option⟩
        (c, { db with carts := db.carts ++ [c] })
  let cart := created.1
  let db1 := created.2
  if cart.cartItems.any (pidMatches productId) then
    (.error ⟨BAD_REQUEST, some .productAlreadyInCart⟩, db1)
  else
    match findProduct db1 productId with
    | none => (.error ⟨BAD_REQUEST, some .productNotInDatabase⟩, db1)
    | some p =>
        let cart2 := { cart with cartItems := cart.cartItems ++ [⟨p, quantity⟩] }
        (.ok cart2, { db1 with carts := saveCart db1.carts cart2 })

/-- Model of `updateProductInCart`: 400 when the cart is missing, 400 when the
product is not in the product store, 400 when the product has no line
item, otherwise overwrite that item's quantity in place and save. -/
def updateProductInCart (db : Db) (user : User) (productId : Nat) (quantity : Int) :
    Except ApiError Cart × Db :=
  match findCart db user.email with
  | none => (.error ⟨BAD_REQUEST, some .userHasNoCartUsePost⟩, db)
  | some cart =>
      match findProduct db productId with
      | none => (.error ⟨BAD_REQUEST, some .productNotInDatabase⟩, db)
      | some _ =>
          match findIndex (pidMatches productId) cart.cartItems with
          | none => (.error ⟨BAD_REQUEST, some .productNotInCart⟩, db)
          | some idx =>
              let cart2 := { cart with
                cartItems := setQuantityAt cart.cartItems idx quantity }
              (.ok cart2, { db with carts := saveCart db.carts cart2 })

/-- Model of `deleteProductFromCart`: 400 when the cart is missing, 400 when the
product has no line item, otherwise filter the item out and save. -/
def deleteProductFromCart (db : Db) (user : User) (productId : Nat) :
    Except ApiError Unit × Db :=
  match findCart db user.email with
  | none => (.error ⟨BAD_REQUEST, some .userHasNoCart⟩, db)
  | some cart =>
      match findIndex (pidMatches productId) cart.cartItems with
      | none => (.error ⟨BAD_REQUEST, some .productNotInCart⟩, db)
      | some _ =>
          let cart2 := { cart with
            cartItems := cart.cartItems.filter (fun i => !(pidMatches productId i)) }
          (.ok (), { db with carts := saveCart db.carts cart2 })

/-- The `reduce` computing the cart total:
`cartItems.reduce((cost, item) => cost + item.product.cost * item.quantity, 0)`. -/
def totalCost (items : List CartItem) : Int :=
  items.foldl (fun cost item => cost + item.product.cost * item.quantity) 0

/-- One persisted write performed by `checkout`: either `user.save()`
with the new wallet balance, or `cart.save()` with the new item list. -/
inductive PersistEvent where
  | saveUser (walletMoney : Int)
  | saveCartItems (items : List CartItem)
deriving DecidableEq, Repr

/-- Model of `checkout`, up to its persisted writes: the validation chain of the
source, returning the thrown error (if any) together with the ordered
list of writes the source performs. -/
def checkoutTrace (db : Db) (user : User) : Except ApiError Unit × List PersistEvent :=
  match findCart db user.email with
  | none => (.error ⟨NOT_FOUND, some .userHasNoCart⟩, [])
  | some cart =>
      if cart.cartItems.length = 0 then
        (.error ⟨BAD_REQUEST, none⟩, [])
      else if !user.hasSetNonDefaultAddress then
        (.error ⟨BAD_REQUEST, none⟩, [])
      else if totalCost cart.cartItems > user.walletMoney then
        (.error ⟨BAD_REQUEST, none⟩, [])
      else
        (.ok (),
         [.saveUser (user.walletMoney - totalCost cart.cartItems), .saveCartItems []])

/-- Apply one persisted write to the user/store state. -/
def applyEvent (user : User) (db : Db) : PersistEvent → User × Db
  | .saveUser w => ({ user with walletMoney := w }, db)
  | .saveCartItems items =>
      (user,
       { db with
         carts := db.carts.map
           (fun c => if c.email == user.email then { c with cartItems := items } else c) })

/-- Apply a list of persisted writes in order. -/
def applyEvents (user : User) (db : Db) : List PersistEvent → User × Db
  | [] => (user, db)
  | e :: es =>
      let next := applyEvent user db e
      applyEvents next.1 next.2 es

/-- Model of `checkout`: the validation chain, then the two persisted writes. -/
def checkout (db : Db) (user : User) : Except ApiError Unit × User × Db :=
  let tr := checkoutTrace db user
  let fin := applyEvents user db tr.2
  (tr.1, fin.1, fin.2)

/-- The item list of the user's persisted cart, `[]` when no cart exists. -/
def cartItemsOf (db : Db) (email : String) : List CartItem :=
  match findCart db email with
  | none => []
  | some c => c.cartItems

/-- The uniqueness invariant: every cart in the store has at most one
line item per distinct product id. -/
def DbInv (db : Db) : Prop :=
  ∀ c ∈ db.carts, (c.cartItems.map (fun i => i.product.pid)).Nodup

/-! ### Helper lemmas about the store operations -/

lemma find?_clearItems (carts : List Cart) (email : String) (c : Cart)
    (items : List CartItem)
    (h : carts.find? (fun x => x.email == email) = some c) :
    (carts.map
        (fun x => if x.email == email then { x with cartItems := items } else x)).find?
      (fun x => x.email == email) = some { c with cartItems := items } := by
  induction carts with
  | nil => simp at h
  | cons a l ih =>
      cases ha : a.email == email with
      | true =>
          simp only [List.find?_cons, ha] at h
          cases h
          simp only [List.map_cons, List.find?_cons, ha, eq_self_iff_true, if_true]
      | false =>
          simp only [List.find?_cons, ha] at h
          simp only [List.map_cons, List.find?_cons, ha, Bool.false_eq_true, if_false]
          exact ih h

lemma findCart_saveCart (carts : List Cart) (c c2 : Cart) (email : String)
    (h : carts.find? (fun x => x.email == email) = some c) (h2 : c2.email = email) :
    (saveCart carts c2).find? (fun x => x.email == email) = some c2 := by
  unfold saveCart
  rw [h2]
  induction carts with
  | nil => simp at h
  | cons a l ih =>
      cases ha : a.email == email with
      | true =>
          simp only [List.map_cons, List.find?_cons, ha, eq_self_iff_true, if_true, h2,
            beq_self_eq_true]
      | false =>
          simp only [List.find?_cons, ha] at h
          simp only [List.map_cons, List.find?_cons, ha, Bool.false_eq_true, if_false]
          exact ih h

lemma saveCart_idem (carts : List Cart) (cart : Cart) :
    saveCart (saveCart carts cart) cart = saveCart carts cart := by
  unfold saveCart
  rw [List.map_map]
  apply List.map_congr_left
  intro c _
  by_cases h : c.email == cart.email <;> simp [h, Function.comp]

lemma setQuantityAt_getElem?_eq (items : List CartItem) (idx : Nat) (q : Int) :
    (setQuantityAt items idx q)[idx]? =
      items[idx]?.map (fun item => { item with quantity := q }) := by
  induction items generalizing idx with
  | nil => simp [setQuantityAt]
  | cons a l ih =>
      cases idx with
      | zero => simp [setQuantityAt]
      | succ n => simpa [setQuantityAt] using ih n

lemma setQuantityAt_getElem?_ne (items : List CartItem) (idx j : Nat) (q : Int)
    (h : j ≠ idx) :
    (setQuantityAt items idx q)[j]? = items[j]? := by
  induction items generalizing idx j with
  | nil => simp [setQuantityAt]
  | cons a l ih =>
      cases idx with
      | zero =>
          cases j with
          | zero => exact absurd rfl h
          | succ m => simp [setQuantityAt]
      | succ n =>
          cases j with
          | zero => simp [setQuantityAt]
          | succ m => simpa [setQuantityAt] using ih n m (fun hc => h (by omega))

lemma findIndex_setQuantityAt (productId : Nat) (items : List CartItem)
    (idx : Nat) (q : Int) :
    findIndex (pidMatches productId) (setQuantityAt items idx q) =
      findIndex (pidMatches productId) items := by
  induction items generalizing idx with
  | nil => simp [setQuantityAt]
  | cons a l ih =>
      cases idx with
      | zero => simp [setQuantityAt, findIndex, pidMatches]
      | succ n => simp [setQuantityAt, findIndex, ih n]

lemma setQuantityAt_idem (items : List CartItem) (idx : Nat) (q : Int) :
    setQuantityAt (setQuantityAt items idx q) idx q = setQuantityAt items idx q := by
  induction items generalizing idx with
  | nil => simp [setQuantityAt]
  | cons a l ih =>
      cases idx with
      | zero => simp [setQuantityAt]
      | succ n => simp [setQuantityAt, ih n]

lemma map_pid_setQuantityAt (items : List CartItem) (idx : Nat) (q : Int) :
    (setQuantityAt items idx q).map (fun i => i.product.pid) =
      items.map (fun i => i.product.pid) := by
  induction items generalizing idx with
  | nil => simp [setQuantityAt]
  | cons a l ih =>
      cases idx with
      | zero => simp [setQuantityAt]
      | succ n => simp [setQuantityAt, ih n]

lemma mem_saveCart (carts : List Cart) (cart c : Cart)
    (h : c ∈ saveCart carts cart) : c = cart ∨ c ∈ carts := by
  unfold saveCart at h
  obtain ⟨x, hx, hfx⟩ := List.mem_map.mp h
  by_cases hc : x.email == cart.email
  · left
    rw [if_pos hc] at hfx
    exact hfx.symm
  · right
    rw [if_neg hc] at hfx
    exact hfx ▸ hx

lemma nodup_pids_append (items : List CartItem) (item : CartItem)
    (hnd : (items.map (fun i => i.product.pid)).Nodup)
    (hno : items.any (pidMatches item.product.pid) = false) :
    ((items ++ [item]).map (fun i => i.product.pid)).Nodup := by
  rw [List.map_append, List.map_singleton]
  refine hnd.append (List.nodup_singleton _) ?_
  intro a ha hb
  rw [List.mem_singleton] at hb
  obtain ⟨i, hi, hpa⟩ := List.mem_map.mp ha
  have hne := List.any_eq_false.mp hno i hi
  rw [pidMatches] at hne
  exact hne (by rw [hpa, hb]; exact beq_self_eq_true _)

lemma checkoutTrace_success (db : Db) (user : User) (cart : Cart)
    (hfind : findCart db user.email = some cart)
    (hne : cart.cartItems ≠ [])
    (haddr : user.hasSetNonDefaultAddress = true)
    (hwallet : totalCost cart.cartItems ≤ user.walletMoney) :
    checkoutTrace db user =
      (.ok (),
       [.saveUser (user.walletMoney - totalCost cart.cartItems), .saveCartItems []]) := by
  unfold checkoutTrace
  rw [hfind]
  simp [List.length_eq_zero, hne, haddr, not_lt.mpr hwallet]

/-! ### Theorems about the claims -/

/-- C1: for every user whose cart exists and is non-empty, whose
non-default-address predicate holds, and whose wallet balance is at least
the total cost of the cart, checkout succeeds, the wallet becomes its
previous value minus the total cost, and the persisted cart item list
becomes empty. -/
theorem checkout_success_debits_wallet_and_empties_cart
    (db : Db) (user : User) (cart : Cart)
    (hfind : findCart db user.email = some cart)
    (hne : cart.cartItems ≠ [])
    (haddr : user.hasSetNonDefaultAddress = true)
    (hwallet : totalCost cart.cartItems ≤ user.walletMoney) :
    (checkout db user).1 = .ok () ∧
    (checkout db user).2.1.walletMoney = user.walletMoney - totalCost cart.cartItems ∧
    cartItemsOf (checkout db user).2.2 user.email = [] := by
  have htr := checkoutTrace_success db user cart hfind hne haddr hwallet
  refine ⟨by simp [checkout, htr], by simp [checkout, htr, applyEvents, applyEvent], ?_⟩
  have hfind' : db.carts.find? (fun x => x.email == user.email) = some cart := hfind
  simp only [checkout, htr, applyEvents, applyEvent, cartItemsOf, findCart]
  rw [find?_clearItems db.carts user.email cart [] hfind']

/-- C1 witness: two items of costs 100 (quantity 2) and 50 (quantity 1)
with wallet 500 give a resulting wallet of 250 and an empty cart. -/
theorem checkout_success_witness :
    (checkout ⟨[⟨"a@b.c", [⟨⟨1, 100⟩, 2⟩, ⟨⟨2, 50⟩, 1⟩], 0⟩], [⟨1, 100⟩, ⟨2, 50⟩]⟩
        ⟨"a@b.c", 500, true⟩).1 = .ok () ∧
    (checkout ⟨[⟨"a@b.c", [⟨⟨1, 100⟩, 2⟩, ⟨⟨2, 50⟩, 1⟩], 0⟩], [⟨1, 100⟩, ⟨2, 50⟩]⟩
        ⟨"a@b.c", 500, true⟩).2.1.walletMoney = 250 ∧
    cartItemsOf
      (checkout ⟨[⟨"a@b.c", [⟨⟨1, 100⟩, 2⟩, ⟨⟨2, 50⟩, 1⟩], 0⟩], [⟨1, 100⟩, ⟨2, 50⟩]⟩
        ⟨"a@b.c", 500, true⟩).2.2 "a@b.c" = [] := by
  have h := checkout_success_debits_wallet_and_empties_cart
    ⟨[⟨"a@b.c", [⟨⟨1, 100⟩, 2⟩, ⟨⟨2, 50⟩, 1⟩], 0⟩], [⟨1, 100⟩, ⟨2, 50⟩]⟩
    ⟨"a@b.c", 500, true⟩ ⟨"a@b.c", [⟨⟨1, 100⟩, 2⟩, ⟨⟨2, 50⟩, 1⟩], 0⟩
    (by decide) (by decide) (by decide) (by decide)
  exact ⟨h.1, by rw [h.2.1]; decide, h.2.2⟩

/-- C3: with an existing non-empty cart and a non-default address, if the
total cost exceeds the wallet balance then checkout fails with status 400
and both the user (wallet included) and the store (cart included) are
unmodified. -/
theorem checkout_insufficient_funds_fails_unmodified
    (db : Db) (user : User) (cart : Cart)
    (hfind : findCart db user.email = some cart)
    (hne : cart.cartItems ≠ [])
    (haddr : user.hasSetNonDefaultAddress = true)
    (hover : totalCost cart.cartItems > user.walletMoney) :
    (checkout db user).1 = .error ⟨BAD_REQUEST, none⟩ ∧
    (checkout db user).2.1 = user ∧
    (checkout db user).2.2 = db := by
  have htr : checkoutTrace db user = (.error ⟨BAD_REQUEST, none⟩, []) := by
    unfold checkoutTrace
    rw [hfind]
    simp [List.length_eq_zero, hne, haddr, hover]
  exact ⟨by simp [checkout, htr], by simp [checkout, htr, applyEvents],
    by simp [checkout, htr, applyEvents]⟩

/-- C3 witness: one item of cost 100 and quantity 3 against a wallet of
250 leaves the checkout rejected with 400 and the state untouched. -/
theorem checkout_insufficient_funds_witness :
    (checkout ⟨[⟨"c3@q.k", [⟨⟨1, 100⟩, 3⟩], 0⟩], [⟨1, 100⟩]⟩
        ⟨"c3@q.k", 250, true⟩).1 = .error ⟨BAD_REQUEST, none⟩ ∧
    (checkout ⟨[⟨"c3@q.k", [⟨⟨1, 100⟩, 3⟩], 0⟩], [⟨1, 100⟩]⟩
        ⟨"c3@q.k", 250, true⟩).2.1 = ⟨"c3@q.k", 250, true⟩ ∧
    (checkout ⟨[⟨"c3@q.k", [⟨⟨1, 100⟩, 3⟩], 0⟩], [⟨1, 100⟩]⟩
        ⟨"c3@q.k", 250, true⟩).2.2 = ⟨[⟨"c3@q.k", [⟨⟨1, 100⟩, 3⟩], 0⟩], [⟨1, 100⟩]⟩ :=
  checkout_insufficient_funds_fails_unmodified
    ⟨[⟨"c3@q.k", [⟨⟨1, 100⟩, 3⟩], 0⟩], [⟨1, 100⟩]⟩ ⟨"c3@q.k", 250, true⟩
    ⟨"c3@q.k", [⟨⟨1, 100⟩, 3⟩], 0⟩ (by decide) (by decide) (by decide) (by decide)

/-- C10: when the total cart cost exactly equals the wallet balance, the
strict greater-than guard lets checkout through, and the wallet becomes 0. -/
theorem checkout_exact_balance_succeeds_wallet_zero
    (db : Db) (user : User) (cart : Cart)
    (hfind : findCart db user.email = some cart)
    (hne : cart.cartItems ≠ [])
    (haddr : user.hasSetNonDefaultAddress = true)
    (heq : totalCost cart.cartItems = user.walletMoney) :
    (checkout db user).1 = .ok () ∧
    (checkout db user).2.1.walletMoney = 0 := by
  have h := checkout_success_debits_wallet_and_empties_cart db user cart hfind hne haddr
    (le_of_eq heq)
  exact ⟨h.1, by rw [h.2.1, heq, sub_self]⟩

/-- C10 witness: one item of cost 100 and quantity 2 against a wallet of
exactly 200 checks out successfully and zeroes the wallet. -/
theorem checkout_exact_balance_witness :
    (checkout ⟨[⟨"c10@q.k", [⟨⟨1, 100⟩, 2⟩], 0⟩], [⟨1, 100⟩]⟩
        ⟨"c10@q.k", 200, true⟩).1 = .ok () ∧
    (checkout ⟨[⟨"c10@q.k", [⟨⟨1, 100⟩, 2⟩], 0⟩], [⟨1, 100⟩]⟩
        ⟨"c10@q.k", 200, true⟩).2.1.walletMoney = 0 :=
  checkout_exact_balance_succeeds_wallet_zero
    ⟨[⟨"c10@q.k", [⟨⟨1, 100⟩, 2⟩], 0⟩], [⟨1, 100⟩]⟩ ⟨"c10@q.k", 200, true⟩
    ⟨"c10@q.k", [⟨⟨1, 100⟩, 2⟩], 0⟩ (by decide) (by decide) (by decide) (by decide)

/-- C2 counterexample: for a user with no persisted cart, `checkout`
fails with status 404 (carrying the no-cart message), not 400 as the
claim states. -/
theorem checkout_no_cart_is_404_not_400 :
    (checkout ⟨[], []⟩ ⟨"c2@q.k", 0, true⟩).1 =
      .error ⟨404, some .userHasNoCart⟩ ∧ (404 : Nat) ≠ 400 := by
  constructor
  · rfl
  · decide

/-- C2 (amended): the no-cart failure status is per-operation, but the
split is read+checkout versus update+delete: `getCartByUser` and
`checkout` fail with 404 while `updateProductInCart` and
`deleteProductFromCart` fail with 400. -/
theorem no_cart_status_codes
    (db : Db) (user : User) (productId : Nat) (quantity : Int)
    (h : findCart db user.email = none) :
    getCartByUser db user = .error ⟨NOT_FOUND, some .userHasNoCart⟩ ∧
    (checkout db user).1 = .error ⟨NOT_FOUND, some .userHasNoCart⟩ ∧
    (updateProductInCart db user productId quantity).1 =
      .error ⟨BAD_REQUEST, some .userHasNoCartUsePost⟩ ∧
    (deleteProductFromCart db user productId).1 =
      .error ⟨BAD_REQUEST, some .userHasNoCart⟩ := by
  refine ⟨?_, ?_, ?_, ?_⟩
  · unfold getCartByUser; rw [h]
  · have htr : checkoutTrace db user = (.error ⟨NOT_FOUND, some .userHasNoCart⟩, []) := by
      unfold checkoutTrace; rw [h]
    simp [checkout, htr, applyEvents]
  · unfold updateProductInCart; rw [h]
  · unfold deleteProductFromCart; rw [h]

/-- C2 (amended) witness: the four statuses at a concrete empty store. -/
theorem no_cart_status_codes_witness :
    getCartByUser ⟨[], []⟩ ⟨"c2w@q.k", 7, true⟩ =
      .error ⟨NOT_FOUND, some .userHasNoCart⟩ ∧
    (checkout ⟨[], []⟩ ⟨"c2w@q.k", 7, true⟩).1 =
      .error ⟨NOT_FOUND, some .userHasNoCart⟩ ∧
    (updateProductInCart ⟨[], []⟩ ⟨"c2w@q.k", 7, true⟩ 5 2).1 =
      .error ⟨BAD_REQUEST, some .userHasNoCartUsePost⟩ ∧
    (deleteProductFromCart ⟨[], []⟩ ⟨"c2w@q.k", 7, true⟩ 5).1 =
      .error ⟨BAD_REQUEST, some .userHasNoCart⟩ :=
  no_cart_status_codes ⟨[], []⟩ ⟨"c2w@q.k", 7, true⟩ 5 2 (by decide)

/-- C4 counterexample: for a user with no persisted cart and a product id
absent from the product store, `addProductToCart` does fail with 400, but
new cart state IS persisted: the lazily created empty cart remains in the
store, so the store differs from its initial value. -/
theorem addProduct_missing_product_persists_created_cart :
    (addProductToCart ⟨[], []⟩ ⟨"c4@q.k", 0, true⟩ 7 1).1 =
      .error ⟨400, some .productNotInDatabase⟩ ∧
    (addProductToCart ⟨[], []⟩ ⟨"c4@q.k", 0, true⟩ 7 1).2 ≠ (⟨[], []⟩ : Db) := by
  constructor
  · rfl
  · decide

/-- C4 (amended): for every user and productId that does not resolve to
an existing product (and is not already in the cart), `addProductToCart`
fails with 400 and no cart item is added — the user's persisted item list
is unchanged; if the user already had a cart the store is fully
unchanged, but if not, a lazily created empty cart is persisted. -/
theorem addProduct_missing_product_fails_no_item_added
    (db : Db) (user : User) (productId : Nat) (quantity : Int)
    (hprod : findProduct db productId = none)
    (hnotin : (cartItemsOf db user.email).any (pidMatches productId) = false) :
    (addProductToCart db user productId quantity).1 =
      .error ⟨BAD_REQUEST, some .productNotInDatabase⟩ ∧
    cartItemsOf (addProductToCart db user productId quantity).2 user.email =
      cartItemsOf db user.email ∧
    (∀ c, findCart db user.email = some c →
      (addProductToCart db user productId quantity).2 = db) := by
  have hprod' : db.products.find? (fun p => p.pid == productId) = none := hprod
  cases hfind : findCart db user.email with
  | some c =>
      have hnotin' : c.cartItems.any (pidMatches productId) = false := by
        simpa [cartItemsOf, hfind] using hnotin
      have hrun : addProductToCart db user productId quantity =
          (.error ⟨BAD_REQUEST, some .productNotInDatabase⟩, db) := by
        unfold addProductToCart
        rw [hfind]
        simp [hnotin', findProduct, hprod']
      exact ⟨by rw [hrun], by rw [hrun], fun _ _ => by rw [hrun]⟩
  | none =>
      have hfind' : db.carts.find? (fun x => x.email == user.email) = none := hfind
      have hrun : addProductToCart db user productId quantity =
          (.error ⟨BAD_REQUEST, some .productNotInDatabase⟩,
           { db with carts := db.carts ++ [⟨user.email, [], default_payment_option⟩] }) := by
        unfold addProductToCart
        rw [hfind]
        simp [findProduct, hprod']
      refine ⟨by rw [hrun], ?_, fun c hc => by simp [hfind] at hc⟩
      rw [hrun]
      simp only [cartItemsOf, findCart, hfind', List.find?_append, hfind', Option.none_or]
      simp [List.find?_cons]

/-- C4 (amended) witness: a user with an existing one-item cart adding an
absent product id 9 is rejected with 400 and the store keeps its items. -/
theorem addProduct_missing_product_witness :
    (addProductToCart ⟨[⟨"c4w@q.k", [⟨⟨1, 10⟩, 1⟩], 0⟩], [⟨1, 10⟩]⟩
        ⟨"c4w@q.k", 0, true⟩ 9 3).1 =
      .error ⟨BAD_REQUEST, some .productNotInDatabase⟩ ∧
    cartItemsOf (addProductToCart ⟨[⟨"c4w@q.k", [⟨⟨1, 10⟩, 1⟩], 0⟩], [⟨1, 10⟩]⟩
        ⟨"c4w@q.k", 0, true⟩ 9 3).2 "c4w@q.k" =
      cartItemsOf ⟨[⟨"c4w@q.k", [⟨⟨1, 10⟩, 1⟩], 0⟩], [⟨1, 10⟩]⟩ "c4w@q.k" ∧
    (∀ c, findCart ⟨[⟨"c4w@q.k", [⟨⟨1, 10⟩, 1⟩], 0⟩], [⟨1, 10⟩]⟩ "c4w@q.k" = some c →
      (addProductToCart ⟨[⟨"c4w@q.k", [⟨⟨1, 10⟩, 1⟩], 0⟩], [⟨1, 10⟩]⟩
        ⟨"c4w@q.k", 0, true⟩ 9 3).2 = ⟨[⟨"c4w@q.k", [⟨⟨1, 10⟩, 1⟩], 0⟩], [⟨1, 10⟩]⟩) :=
  addProduct_missing_product_fails_no_item_added
    ⟨[⟨"c4w@q.k", [⟨⟨1, 10⟩, 1⟩], 0⟩], [⟨1, 10⟩]⟩ ⟨"c4w@q.k", 0, true⟩ 9 3
    (by decide) (by decide)

/-- C5: if the user's cart holds exactly one line item for productId, a
further `addProductToCart` for the same productId fails with 400, the
store is unchanged, and the cart afterwards still holds exactly one line
item for that product id. -/
theorem addProduct_duplicate_rejected_keeps_single_item
    (db : Db) (user : User) (productId : Nat) (quantity : Int) (cart : Cart)
    (hfind : findCart db user.email = some cart)
    (hone : cart.cartItems.countP (pidMatches productId) = 1) :
    (addProductToCart db user productId quantity).1 =
      .error ⟨BAD_REQUEST, some .productAlreadyInCart⟩ ∧
    (addProductToCart db user productId quantity).2 = db ∧
    (cartItemsOf (addProductToCart db user productId quantity).2 user.email).countP
      (pidMatches productId) = 1 := by
  have hany : cart.cartItems.any (pidMatches productId) = true := by
    rw [List.any_eq_true]
    have hpos : 0 < cart.cartItems.countP (pidMatches productId) := by omega
    obtain ⟨a, ha, hpa⟩ := List.countP_pos_iff.mp hpos
    exact ⟨a, ha, hpa⟩
  have hrun : addProductToCart db user productId quantity =
      (.error ⟨BAD_REQUEST, some .productAlreadyInCart⟩, db) := by
    unfold addProductToCart
    rw [hfind]
    simp [hany]
  exact ⟨by rw [hrun], by rw [hrun], by rw [hrun]; simpa [cartItemsOf, hfind] using hone⟩

/-- C5 witness: a cart holding product 1 once rejects a second add of
product 1 and keeps exactly one line item for it. -/
theorem addProduct_duplicate_witness :
    (addProductToCart ⟨[⟨"c5@q.k", [⟨⟨1, 10⟩, 2⟩], 0⟩], [⟨1, 10⟩]⟩
        ⟨"c5@q.k", 0, true⟩ 1 4).1 =
      .error ⟨BAD_REQUEST, some .productAlreadyInCart⟩ ∧
    (addProductToCart ⟨[⟨"c5@q.k", [⟨⟨1, 10⟩, 2⟩], 0⟩], [⟨1, 10⟩]⟩
        ⟨"c5@q.k", 0, true⟩ 1 4).2 = ⟨[⟨"c5@q.k", [⟨⟨1, 10⟩, 2⟩], 0⟩], [⟨1, 10⟩]⟩ ∧
    (cartItemsOf (addProductToCart ⟨[⟨"c5@q.k", [⟨⟨1, 10⟩, 2⟩], 0⟩], [⟨1, 10⟩]⟩
        ⟨"c5@q.k", 0, true⟩ 1 4).2 "c5@q.k").countP (pidMatches 1) = 1 :=
  addProduct_duplicate_rejected_keeps_single_item
    ⟨[⟨"c5@q.k", [⟨⟨1, 10⟩, 2⟩], 0⟩], [⟨1, 10⟩]⟩ ⟨"c5@q.k", 0, true⟩ 1 4
    ⟨"c5@q.k", [⟨⟨1, 10⟩, 2⟩], 0⟩ (by decide) (by decide)

/-- C6: the duplicate-in-cart check runs before the product-existence
check: when the cart already holds a line item for productId, the call
fails with the already-in-cart 400 error even though productId resolves
to no product in the product store. -/
theorem duplicate_check_precedes_existence_check
    (db : Db) (user : User) (productId : Nat) (quantity : Int) (cart : Cart)
    (hfind : findCart db user.email = some cart)
    (hin : cart.cartItems.any (pidMatches productId) = true)
    (hprod : findProduct db productId = none) :
    (addProductToCart db user productId quantity).1 =
      .error ⟨BAD_REQUEST, some .productAlreadyInCart⟩ := by
  unfold addProductToCart
  rw [hfind]
  simp [hin]

/-- C6 witness: product 3 sits in the cart but not in the product store;
the add still reports the already-in-cart error. -/
theorem duplicate_check_precedes_witness :
    (addProductToCart ⟨[⟨"c6@q.k", [⟨⟨3, 5⟩, 1⟩], 0⟩], []⟩
        ⟨"c6@q.k", 0, true⟩ 3 2).1 =
      .error ⟨BAD_REQUEST, some .productAlreadyInCart⟩ :=
  duplicate_check_precedes_existence_check
    ⟨[⟨"c6@q.k", [⟨⟨3, 5⟩, 1⟩], 0⟩], []⟩ ⟨"c6@q.k", 0, true⟩ 3 2
    ⟨"c6@q.k", [⟨⟨3, 5⟩, 1⟩], 0⟩ (by decide) (by decide) (by decide)

/-- C7: when the cart holds a line item for productId (at index `idx`)
and the product exists, `updateProductInCart` succeeds, sets exactly that
item's quantity to the new value (product reference kept), leaves every
other position unchanged, persists the returned cart, and is idempotent:
running the same update again returns the same cart and the same store. -/
theorem update_sets_quantity_exactly_and_is_idempotent
    (db : Db) (user : User) (productId : Nat) (quantity : Int)
    (cart : Cart) (p : Product) (idx : Nat)
    (hfind : findCart db user.email = some cart)
    (hprod : findProduct db productId = some p)
    (hidx : findIndex (pidMatches productId) cart.cartItems = some idx) :
    ∃ cart2 db2,
      updateProductInCart db user productId quantity = (.ok cart2, db2) ∧
      cart2.cartItems[idx]? =
        cart.cartItems[idx]?.map (fun item => { item with quantity := quantity }) ∧
      (∀ j, j ≠ idx → cart2.cartItems[j]? = cart.cartItems[j]?) ∧
      findCart db2 user.email = some cart2 ∧
      updateProductInCart db2 user productId quantity = (.ok cart2, db2) := by
  have hmail : cart.email = user.email := by
    have h := List.find?_some hfind
    simpa using h
  set cart2 : Cart := { cart with cartItems := setQuantityAt cart.cartItems idx quantity }
    with hc2
  set db2 : Db := { db with carts := saveCart db.carts cart2 } with hdb2
  have hrun : updateProductInCart db user productId quantity = (.ok cart2, db2) := by
    unfold updateProductInCart
    rw [hfind]; dsimp only; rw [hprod]; dsimp only; rw [hidx]
  have hfind2 : findCart db2 user.email = some cart2 := by
    unfold findCart
    exact findCart_saveCart db.carts cart cart2 user.email hfind (by rw [hc2]; exact hmail)
  have hprod2 : findProduct db2 productId = some p := hprod
  have hidx2 : findIndex (pidMatches productId) cart2.cartItems = some idx := by
    rw [hc2]
    show findIndex (pidMatches productId) (setQuantityAt cart.cartItems idx quantity) =
      some idx
    rw [findIndex_setQuantityAt]
    exact hidx
  have hitems : setQuantityAt cart2.cartItems idx quantity = cart2.cartItems := by
    rw [hc2]
    exact setQuantityAt_idem cart.cartItems idx quantity
  have hsave : saveCart db2.carts cart2 = db2.carts := by
    rw [hdb2]
    exact saveCart_idem db.carts cart2
  have hrun2 : updateProductInCart db2 user productId quantity = (.ok cart2, db2) := by
    unfold updateProductInCart
    rw [hfind2]; dsimp only; rw [hprod2]; dsimp only; rw [hidx2]; dsimp only
    have heta : ({ cart2 with cartItems := cart2.cartItems } : Cart) = cart2 := rfl
    rw [hitems, heta, hsave]
  refine ⟨cart2, db2, hrun, ?_, ?_, hfind2, hrun2⟩
  · rw [hc2]
    exact setQuantityAt_getElem?_eq cart.cartItems idx quantity
  · intro j hj
    rw [hc2]
    exact setQuantityAt_getElem?_ne cart.cartItems idx j quantity hj

/-- C7 witness: updating product 1 of a one-item cart to quantity 5
succeeds, stores quantity 5 at index 0, and a repeated update is a
no-op on the returned state. -/
theorem update_idempotent_witness :
    ∃ cart2 db2,
      updateProductInCart ⟨[⟨"c7@q.k", [⟨⟨1, 10⟩, 2⟩], 0⟩], [⟨1, 10⟩]⟩
          ⟨"c7@q.k", 0, true⟩ 1 5 = (.ok cart2, db2) ∧
      cart2.cartItems[0]? =
        (([⟨⟨1, 10⟩, 2⟩] : List CartItem)[0]?).map
          (fun item => { item with quantity := 5 }) ∧
      (∀ j, j ≠ 0 → cart2.cartItems[j]? = ([⟨⟨1, 10⟩, 2⟩] : List CartItem)[j]?) ∧
      findCart db2 "c7@q.k" = some cart2 ∧
      updateProductInCart db2 ⟨"c7@q.k", 0, true⟩ 1 5 = (.ok cart2, db2) :=
  update_sets_quantity_exactly_and_is_idempotent
    ⟨[⟨"c7@q.k", [⟨⟨1, 10⟩, 2⟩], 0⟩], [⟨1, 10⟩]⟩ ⟨"c7@q.k", 0, true⟩ 1 5
    ⟨"c7@q.k", [⟨⟨1, 10⟩, 2⟩], 0⟩ ⟨1, 10⟩ 0 (by decide) (by decide) (by decide)

/-- C8: on a successful checkout the persisted writes are, in order, the
user save with the debited wallet and then the cart save with the empty
item list; applying only the first write (the second persist failing)
leaves a debited wallet together with the original, non-empty cart. -/
theorem checkout_persists_user_save_before_cart_save
    (db : Db) (user : User) (cart : Cart)
    (hfind : findCart db user.email = some cart)
    (hne : cart.cartItems ≠ [])
    (haddr : user.hasSetNonDefaultAddress = true)
    (hwallet : totalCost cart.cartItems ≤ user.walletMoney) :
    (checkoutTrace db user).2 =
      [.saveUser (user.walletMoney - totalCost cart.cartItems), .saveCartItems []] ∧
    (applyEvents user db ((checkoutTrace db user).2.take 1)).1.walletMoney =
      user.walletMoney - totalCost cart.cartItems ∧
    cartItemsOf (applyEvents user db ((checkoutTrace db user).2.take 1)).2 user.email =
      cart.cartItems ∧
    cart.cartItems ≠ [] := by
  have htr := checkoutTrace_success db user cart hfind hne haddr hwallet
  refine ⟨by rw [htr], ?_, ?_, hne⟩
  · rw [htr]
    simp [applyEvents, applyEvent]
  · rw [htr]
    simp [applyEvents, applyEvent, cartItemsOf, hfind]

/-- C8 witness: with a single item of cost 4 and quantity 2 against a
wallet of 10, the trace is user save of 2 then cart save of []; stopping
after the user save leaves wallet 2 and the cart still holding the item. -/
theorem checkout_persist_order_witness :
    (checkoutTrace ⟨[⟨"c8@q.k", [⟨⟨1, 4⟩, 2⟩], 0⟩], [⟨1, 4⟩]⟩ ⟨"c8@q.k", 10, true⟩).2 =
      [.saveUser 2, .saveCartItems []] ∧
    (applyEvents ⟨"c8@q.k", 10, true⟩ ⟨[⟨"c8@q.k", [⟨⟨1, 4⟩, 2⟩], 0⟩], [⟨1, 4⟩]⟩
        ((checkoutTrace ⟨[⟨"c8@q.k", [⟨⟨1, 4⟩, 2⟩], 0⟩], [⟨1, 4⟩]⟩
          ⟨"c8@q.k", 10, true⟩).2.take 1)).1.walletMoney = 2 ∧
    cartItemsOf (applyEvents ⟨"c8@q.k", 10, true⟩ ⟨[⟨"c8@q.k", [⟨⟨1, 4⟩, 2⟩], 0⟩], [⟨1, 4⟩]⟩
        ((checkoutTrace ⟨[⟨"c8@q.k", [⟨⟨1, 4⟩, 2⟩], 0⟩], [⟨1, 4⟩]⟩
          ⟨"c8@q.k", 10, true⟩).2.take 1)).2 "c8@q.k" = [⟨⟨1, 4⟩, 2⟩] ∧
    ([⟨⟨1, 4⟩, 2⟩] : List CartItem) ≠ [] := by
  have h := checkout_persists_user_save_before_cart_save
    ⟨[⟨"c8@q.k", [⟨⟨1, 4⟩, 2⟩], 0⟩], [⟨1, 4⟩]⟩ ⟨"c8@q.k", 10, true⟩
    ⟨"c8@q.k", [⟨⟨1, 4⟩, 2⟩], 0⟩ (by decide) (by decide) (by decide) (by decide)
  refine ⟨?_, ?_, ?_, by decide⟩
  · rw [h.1]; decide
  · rw [h.2.1]; decide
  · exact h.2.2.1

lemma addProductToCart_preserves_inv (db : Db) (user : User) (productId : Nat)
    (quantity : Int) (hinv : DbInv db) :
    DbInv (addProductToCart db user productId quantity).2 := by
  have hnew :
      DbInv { db with carts := db.carts ++ [⟨user.email, [], default_payment_option⟩] } := by
    intro c hc
    rcases List.mem_append.mp hc with hc | hc
    · exact hinv c hc
    · rw [List.mem_singleton] at hc
      subst hc
      simp
  unfold addProductToCart
  cases hfind : findCart db user.email with
  | none =>
      dsimp only
      split
      · exact hnew
      · split
        · exact hnew
        · next p hp =>
            intro c hc
            rcases mem_saveCart _ _ _ hc with rfl | hc
            · simp
            · exact hnew c hc
  | some c0 =>
      dsimp only
      split
      · exact hinv
      · next hany =>
          split
          · exact hinv
          · next p hp =>
              intro c hc
              rcases mem_saveCart _ _ _ hc with rfl | hc
              · have hc0 : c0 ∈ db.carts := List.mem_of_find?_eq_some hfind
                have hpid : p.pid = productId := by
                  have := List.find?_some hp
                  simpa using this
                have hany' : c0.cartItems.any (pidMatches productId) = false :=
                  Bool.not_eq_true _ ▸ Bool.of_not_eq_true hany
                exact nodup_pids_append c0.cartItems ⟨p, quantity⟩ (hinv c0 hc0)
                  (by dsimp only; rw [hpid]; exact hany')
              · exact hinv c hc

lemma updateProductInCart_preserves_inv (db : Db) (user : User) (productId : Nat)
    (quantity : Int) (hinv : DbInv db) :
    DbInv (updateProductInCart db user productId quantity).2 := by
  unfold updateProductInCart
  cases hfind : findCart db user.email with
  | none => exact hinv
  | some c0 =>
      dsimp only
      split
      · exact hinv
      · split
        · exact hinv
        · next idx hidx =>
            intro c hc
            rcases mem_saveCart _ _ _ hc with rfl | hc
            · have hc0 : c0 ∈ db.carts := List.mem_of_find?_eq_some hfind
              show ((setQuantityAt c0.cartItems idx quantity).map
                (fun i => i.product.pid)).Nodup
              rw [map_pid_setQuantityAt]
              exact hinv c0 hc0
            · exact hinv c hc

lemma deleteProductFromCart_preserves_inv (db : Db) (user : User) (productId : Nat)
    (hinv : DbInv db) :
    DbInv (deleteProductFromCart db user productId).2 := by
  unfold deleteProductFromCart
  cases hfind : findCart db user.email with
  | none => exact hinv
  | some c0 =>
      dsimp only
      split
      · exact hinv
      · intro c hc
        rcases mem_saveCart _ _ _ hc with rfl | hc
        · have hc0 : c0 ∈ db.carts := List.mem_of_find?_eq_some hfind
          have hsub : (c0.cartItems.filter
              (fun i => !(pidMatches productId i))).Sublist c0.cartItems :=
            List.filter_sublist _
          exact (hinv c0 hc0).sublist (hsub.map _)
        · exact hinv c hc

lemma checkout_preserves_inv (db : Db) (user : User) (hinv : DbInv db) :
    DbInv (checkout db user).2.2 := by
  cases hfind : findCart db user.email with
  | none =>
      have htr : checkoutTrace db user = (.error ⟨NOT_FOUND, some .userHasNoCart⟩, []) := by
        unfold checkoutTrace
        rw [hfind]
      simp only [checkout, htr, applyEvents]
      exact hinv
  | some c0 =>
      by_cases h1 : c0.cartItems.length = 0
      · have htr : checkoutTrace db user = (.error ⟨BAD_REQUEST, none⟩, []) := by
          unfold checkoutTrace
          rw [hfind]
          simp [h1]
        simp only [checkout, htr, applyEvents]
        exact hinv
      by_cases h2 : user.hasSetNonDefaultAddress = true
      case neg =>
        have htr : checkoutTrace db user = (.error ⟨BAD_REQUEST, none⟩, []) := by
          unfold checkoutTrace
          rw [hfind]
          simp [h1, Bool.not_eq_true _ ▸ h2]
        simp only [checkout, htr, applyEvents]
        exact hinv
      by_cases h3 : totalCost c0.cartItems > user.walletMoney
      · have htr : checkoutTrace db user = (.error ⟨BAD_REQUEST, none⟩, []) := by
          unfold checkoutTrace
          rw [hfind]
          simp [h1, h2, h3]
        simp only [checkout, htr, applyEvents]
        exact hinv
      · have htr := checkoutTrace_success db user c0 hfind
          (fun hc => h1 (by rw [hc]; rfl)) h2 (not_lt.mp h3)
        simp only [checkout, htr, applyEvents, applyEvent]
        intro c hc
        obtain ⟨y, hy, hfy⟩ := List.mem_map.mp hc
        by_cases hmail : y.email == ({ user with
            walletMoney := user.walletMoney - totalCost c0.cartItems } : User).email
        · rw [if_pos hmail] at hfy
          subst hfy
          simp
        · rw [if_neg hmail] at hfy
          subst hfy
          exact hinv y hy

/-- C9: the uniqueness invariant — at most one line item per distinct
product id in every stored cart — is preserved by `addProductToCart`
(duplicates are rejected before the append), `updateProductInCart`
(in-place quantity overwrite), `deleteProductFromCart` (pure removal),
and `checkout` (emptying the list). -/
theorem cart_uniqueness_invariant_preserved
    (db : Db) (user : User) (productId : Nat) (quantity : Int)
    (hinv : DbInv db) :
    DbInv (addProductToCart db user productId quantity).2 ∧
    DbInv (updateProductInCart db user productId quantity).2 ∧
    DbInv (deleteProductFromCart db user productId).2 ∧
    DbInv (checkout db user).2.2 :=
  ⟨addProductToCart_preserves_inv db user productId quantity hinv,
   updateProductInCart_preserves_inv db user productId quantity hinv,
   deleteProductFromCart_preserves_inv db user productId hinv,
   checkout_preserves_inv db user hinv⟩

/-- C9 witness: the invariant holds after each operation runs on a
one-cart store holding products 1 and 2. -/
theorem cart_uniqueness_invariant_witness :
    DbInv (addProductToCart ⟨[⟨"c9@q.k", [⟨⟨1, 3⟩, 1⟩], 0⟩], [⟨1, 3⟩, ⟨2, 4⟩]⟩
      ⟨"c9@q.k", 9, true⟩ 2 1).2 ∧
    DbInv (updateProductInCart ⟨[⟨"c9@q.k", [⟨⟨1, 3⟩, 1⟩], 0⟩], [⟨1, 3⟩, ⟨2, 4⟩]⟩
      ⟨"c9@q.k", 9, true⟩ 2 1).2 ∧
    DbInv (deleteProductFromCart ⟨[⟨"c9@q.k", [⟨⟨1, 3⟩, 1⟩], 0⟩], [⟨1, 3⟩, ⟨2, 4⟩]⟩
      ⟨"c9@q.k", 9, true⟩ 2).2 ∧
    DbInv (checkout ⟨[⟨"c9@q.k", [⟨⟨1, 3⟩, 1⟩], 0⟩], [⟨1, 3⟩, ⟨2, 4⟩]⟩
      ⟨"c9@q.k", 9, true⟩).2.2 :=
  cart_uniqueness_invariant_preserved
    ⟨[⟨"c9@q.k", [⟨⟨1, 3⟩, 1⟩], 0⟩], [⟨1, 3⟩, ⟨2, 4⟩]⟩ ⟨"c9@q.k", 9, true⟩ 2 1
    (by intro c hc; simp at hc; subst hc; simp)

end Qkart
